import Mathlib

/-!
# Verification of the Voyager gateway supervisor

Shallow embedding of `src/app/src/main/index.js` (the Electron main process
of Cosmos Voyager): node selection, trust-handshake retry, gateway startup,
the reconnect loop and the startup (`main`) sequence, together with proofs
about the behaviours the specification describes.

JavaScript strings become `String`, the module-level mutable variables
become explicit state records, asynchronous event handlers become step
functions folded over event traces, and `Math.random()` draws become an
explicit list of natural-number indices.
-/

namespace Voyager

/-- JavaScript `a || b` where `a` is an optional environment variable:
`undefined` and the empty string are falsy. -/
def jsOr (a : Option String) (b : String) : String :=
  match a with
  | none => b
  | some s => if s = "" then b else s

/-- Core of JavaScript `String.prototype.split` with a one-character
separator, over the character list.  `"".split(sep)` is `[""]`. -/
def splitOnChar (sep : Char) : List Char → List (List Char)
  | [] => [[]]
  | c :: cs =>
      match splitOnChar sep cs with
      | [] => if c == sep then [[], []] else [[c]]
      | h :: t => if c == sep then [] :: h :: t else (c :: h) :: t

/-- JavaScript `s.split(sep)` for a one-character separator (the source
only splits on `":"` and `","`). -/
def jsSplit (sep : Char) (s : String) : List String :=
  (splitOnChar sep s.data).map (fun l => ⟨l⟩)

/-- Whether `pre` is a leading segment of the second list. -/
def leadsWith : List Char → List Char → Bool
  | [], _ => true
  | _ :: _, [] => false
  | a :: as, b :: bs => a == b && leadsWith as bs

/-- Whether `needle` occurs contiguously in `hay`. -/
def hasSub (needle : List Char) : List Char → Bool
  | [] => needle.isEmpty
  | c :: cs => leadsWith needle (c :: cs) || hasSub needle cs

/-- JavaScript `hay.includes(needle)`. -/
def jsIncludes (needle hay : String) : Bool :=
  hasSub needle.data hay.data

/-- JavaScript `s.trim()`: surrounding whitespace removed from both ends. -/
def jsTrim (s : String) : String :=
  ⟨((s.data.dropWhile Char.isWhitespace).reverse.dropWhile
      Char.isWhitespace).reverse⟩

/-- The port rewrite of `pickNode` (index.js:432):
`` nodeIP = `${nodeIP.split(":")[0]}:46657` `` — the chosen host's port is
replaced with the canonical RPC port 46657. -/
def canonicalize (s : String) : String :=
  ((jsSplit ':' s).headD "") ++ ":46657"

/-- `pickNode(seeds)` (index.js:427-435): `NODE || seeds[Math.floor(Math.random()*seeds.length)]`
followed by the port rewrite.  `NODE` is the `COSMOS_NODE` environment
override; `r` is the random index drawn. -/
def pickNode (NODE : Option String) (seeds : List String) (r : Nat) : String :=
  let nodeIP := jsOr NODE (seeds.getD r "")
  canonicalize nodeIP

/-- `seeds = configTOML.p2p.seeds.split(",").filter(x => x !== "")` (index.js:582). -/
def parseSeeds (s : String) : List String :=
  (jsSplit ',' s).filter (fun x => x != "")

/-! ## Semantic versions and the data-directory compatibility check -/

/-- A release semantic version `major.minor.patch` (the form `pkg.version`
and the stored `app_version` take). -/
structure SemVer where
  major : Nat
  minor : Nat
  patch : Nat
deriving DecidableEq, Repr

/-- `semver.diff(a, b)` restricted to release versions: `null` when equal,
otherwise the highest component that differs. -/
def semverDiff (a b : SemVer) : Option String :=
  if a = b then none
  else if a.major ≠ b.major then some "major"
  else if a.minor ≠ b.minor then some "minor"
  else some "patch"

/-- The errors thrown by `main()` (index.js:479-597), in source order. -/
inductive MainError
  | incompatibleVersion
  | missingFiles
  | genesisChanged
  | gaiaVersionMismatch
  | noSeeds
deriving DecidableEq, Repr

/-- The genesis check of `main()` (index.js:533-546).  First component:
whether the content comparison was performed at all (it is skipped for the
`"local"` chain id); second: its outcome.  `existing.trim() !== specified.trim()`
throws `Error("Genesis has changed")`. -/
def genesisCheck (chainId existing specified : String) :
    Bool × Except MainError Unit :=
  if chainId ≠ "local" then
    (true,
      if jsTrim existing ≠ jsTrim specified then .error .genesisChanged
      else .ok ())
  else
    (false, .ok ())

/-! ## The startup sequence `main()` -/

/-- Externally visible effects of the startup sequence. -/
inductive Effect
  | copyNetwork
  | writeFile (name : String)
  | spawn (args : List String)
deriving DecidableEq, Repr

/-- The inputs `main()` reads from the environment and disk. -/
structure MainConfig where
  rootExists : Bool
  /-- whether all four artifacts exist (`consistentConfigDir`, index.js:372-384) -/
  consistent : Bool
  existingVersion : SemVer
  currentVersion : SemVer
  chainId : String
  existingGenesis : String
  specifiedGenesis : String
  gaiaVersion : String
  expectedGaiaVersion : String
  /-- the raw `p2p.seeds` field of `config.toml` -/
  seedsField : String

/-- The part of `main()` after the directory checks (index.js:549-588):
initialization copies if the directory is fresh, the `gaia version` probe
(which spawns a process, index.js:233-239,564), the gaia version
comparison, and the seed-list parse and non-emptiness check.  Returns the
effect trace and either the thrown error or the parsed seed pool. -/
def mainAfterDirCheck (cfg : MainConfig) (initFresh : Bool) :
    List Effect × Except MainError (List String) :=
  let fx := (if initFresh then [Effect.copyNetwork, Effect.writeFile "app_version"] else [])
    ++ [Effect.spawn ["version"]]
  if jsTrim cfg.gaiaVersion ≠ jsTrim cfg.expectedGaiaVersion then
    (fx, .error .gaiaVersionMismatch)
  else
    let seeds := parseSeeds cfg.seedsField
    if seeds = [] then (fx, .error .noSeeds)
    else (fx, .ok seeds)

/-- The startup sequence `main()` (index.js:479-588) up to node selection:
directory existence, the four-artifact consistency check, the
`semver.diff(...) !== "major"` app-version check, the genesis check, then
`mainAfterDirCheck`.  The remaining steps (node pick, `lcdInitialized`
probe, `initLCD`, `connect`) are modelled separately below. -/
def mainStartup (cfg : MainConfig) : List Effect × Except MainError (List String) :=
  if cfg.rootExists then
    if ¬ cfg.consistent then ([], .error .missingFiles)
    else if semverDiff cfg.existingVersion cfg.currentVersion = some "major" then
      ([], .error .incompatibleVersion)
    else
      match (genesisCheck cfg.chainId cfg.existingGenesis cfg.specifiedGenesis).2 with
      | .error e => ([], .error e)
      | .ok () => mainAfterDirCheck cfg false
  else
    mainAfterDirCheck cfg true

/-! ## The trust handshake (`handleHashVerification`, `initLCD`) -/

/-- A signal delivered by the renderer for an outstanding trust request. -/
inductive HashSignal
  | approved (hash : String)
  | disapproved (hash : String)
deriving DecidableEq, Repr

/-- `handleHashVerification(nodeHash)` (index.js:251-268): the promise
resolves (`true`) only on an `"hash-approved"` signal whose hash equals
`nodeHash`; an approval with a different hash, or any disapproval,
rejects (`false`). -/
def handleHashVerification (nodeHash : String) : HashSignal → Bool
  | .approved hash => hash == nodeHash
  | .disapproved _ => false

/-- Observable actions taken by `initLCD`'s decision handler. -/
inductive InitAction
  | killChild
  | writeStdin (s : String)
  | retryInit (node : String)
deriving DecidableEq, Repr

/-- `initLCD`'s reaction to the settled hash-verification promise
(index.js:292-316).  Resolved: unless shutting down, write `"y\n"` to the
sub-process's stdin and await a clean exit.  Rejected: kill the sub-process
with SIGTERM, then unless shutting down pick a new node (random draw `r`)
and recurse into `initLCD` against it. -/
def initLCDOnDecision (verified shuttingDown : Bool)
    (NODE : Option String) (seeds : List String) (r : Nat) : List InitAction :=
  if verified then
    if shuttingDown then [] else [.writeStdin "y\n"]
  else
    .killChild ::
      (if shuttingDown then [] else [.retryInit (pickNode NODE seeds r)])

/-! ## Gateway startup (`startLCD`) -/

/-- `data.includes("Serving on")` (index.js:220): JavaScript `includes`
holds exactly when splitting on the needle yields more than one part. -/
def containsServing (data : String) : Bool :=
  jsIncludes "Serving on" data

/-- An event on the gateway child process during startup. -/
inductive LCDEvent
  | stdout (data : String)
  | exited
deriving DecidableEq, Repr

/-- Observable state of the `startLCD` promise (index.js:204-231):
whether it has resolved, and the error events sent to the renderer.
The executor never calls `reject`, so there is no rejected state. -/
structure LCDRun where
  resolved : Bool
  errorsSent : List String
deriving DecidableEq, Repr

/-- One event handler step of `startLCD`: a stdout chunk containing the
serving marker resolves the promise; an exit event sends an
unplanned-exit error to the renderer (whether or not the promise has
resolved), and does not settle the promise. -/
def lcdStep (st : LCDRun) : LCDEvent → LCDRun
  | .stdout data => if containsServing data then { st with resolved := true } else st
  | .exited =>
      { st with errorsSent :=
          st.errorsSent ++ ["The Gaia REST-server (LCD) exited unplanned"] }

/-- `startLCD`'s observable outcome over a trace of child-process events. -/
def runStartLCD (evs : List LCDEvent) : LCDRun :=
  evs.foldl lcdStep { resolved := false, errorsSent := [] }

/-! ## The reconnect loop (`connect`, `reconnect`) -/

/-- The module-level supervisor state touched by `connect`/`reconnect`:
the `connecting` flag (index.js:22, initialized `true`), the module-level
`nodeIP` variable (index.js:21), the node the running gateway points at,
and the `connected` events sent to the renderer. -/
structure SupState where
  connecting : Bool
  nodeIP : String
  lcdTarget : Option String
  connectedEvents : List String
deriving DecidableEq, Repr

/-- Effects performed by the reconnect loop. -/
inductive RcEffect
  | probe (node : String) (timeoutMs : Nat)
  | sleep (ms : Nat)
  | killLCD
  | spawnLCD (node : String)
  | emitConnected (node : String)
deriving DecidableEq, Repr

/-- The probe loop of `reconnect` (index.js:456-469): each iteration picks
a node with a fresh random draw, probes it over HTTP with a 3000 ms
timeout, and sleeps 2000 ms before the next attempt if it was down.
Returns the effect trace and the live node found, `none` if the supplied
draws are exhausted first (the real loop would keep drawing). -/
def findLiveNode (NODE : Option String) (seeds : List String)
    (alive : String → Bool) : List Nat → List RcEffect × Option String
  | [] => ([], none)
  | r :: rs =>
      let n := pickNode NODE seeds r
      if alive n then ([.probe n 3000], some n)
      else
        let (fx, res) := findLiveNode NODE seeds alive rs
        (.probe n 3000 :: .sleep 2000 :: fx, res)

/-- `connect(seeds, nodeIP)` (index.js:437-450): starts the gateway
pointed at `node`, sends exactly one `connected` event carrying `node`,
and clears the `connecting` flag. -/
def connect (s : SupState) (node : String) : SupState × List RcEffect :=
  ({ s with
      lcdTarget := some node,
      connectedEvents := s.connectedEvents ++ [node],
      connecting := false },
   [.spawnLCD node, .emitConnected node])

/-- `reconnect(seeds)` (index.js:452-477).  Returns immediately when
`connecting` already holds; otherwise sets it, runs the probe loop, kills
the running gateway, and calls `connect(seeds, nodeIP)`.  Faithful to the
source's scoping: the `let nodeIP` of index.js:458 is block-scoped to the
`while` body, so the `nodeIP` passed to `connect` at index.js:474 is the
module-level `s.nodeIP`, not the live node the loop found.  `none` means
the probe loop is still running when the draws run out. -/
def reconnect (s : SupState) (NODE : Option String) (seeds : List String)
    (alive : String → Bool) (rs : List Nat) : Option SupState × List RcEffect :=
  if s.connecting then (some s, [])
  else
    let s1 := { s with connecting := true }
    match findLiveNode NODE seeds alive rs with
    | (fx, none) => (none, fx)
    | (fx, some _live) =>
        let s2 := { s1 with lcdTarget := none }
        let (s3, fx2) := connect s2 s1.nodeIP
        (some s3, fx ++ .killLCD :: fx2)

/-! ## The single-in-flight-reconnect state machine -/

/-- Abstract connection state: the `connecting` flag and the number of
reconnect loops currently in flight. -/
structure ConnState where
  connecting : Bool
  loops : Nat
deriving DecidableEq, Repr

/-- The initial module state: `connecting = true` (index.js:22), no
reconnect loop running. -/
def initConnState : ConnState := { connecting := true, loops := 0 }

/-- The events that touch the `connecting` flag: an ipc `reconnect`
request (index.js:390,452-454) and the completion of a `connect` call
(index.js:446), which also ends the reconnect loop that issued it. -/
inductive ConnEv
  | reconnectReq
  | connectDone
deriving DecidableEq, Repr

/-- One transition: a reconnect request is a no-op while `connecting`
holds, and otherwise sets the flag and starts one loop; a completed
connect clears the flag and retires the loop that ran it. -/
def connStep (s : ConnState) : ConnEv → ConnState
  | .reconnectReq =>
      if s.connecting then s else { connecting := true, loops := s.loops + 1 }
  | .connectDone => { connecting := false, loops := s.loops - 1 }

/-- The connection state after a trace of events. -/
def runConn (evs : List ConnEv) : ConnState :=
  evs.foldl connStep initConnState

/-! ## Concrete instances used in witnesses and counterexamples -/

/-- Concrete startup configuration: pre-existing consistent directory on
the `"local"` test chain with divergent stored genesis. -/
def cfgLocalDivergent : MainConfig :=
  { rootExists := true
    consistent := true
    existingVersion := ⟨0, 6, 1⟩
    currentVersion := ⟨0, 7, 0⟩
    chainId := "local"
    existingGenesis := "g1"
    specifiedGenesis := "g2"
    gaiaVersion := "0.13.0"
    expectedGaiaVersion := "0.13.0"
    seedsField := "a:1" }

/-- Concrete startup configuration: like `cfgLocalDivergent` but on a
public chain id, so the genesis comparison is live. -/
def cfgGaiaDivergent : MainConfig :=
  { cfgLocalDivergent with chainId := "gaia-2" }

/-- Concrete startup configuration: stored app version a major step away
from the current one. -/
def cfgMajorDiff : MainConfig :=
  { cfgLocalDivergent with
      existingVersion := ⟨1, 0, 0⟩
      currentVersion := ⟨2, 0, 0⟩ }

/-- Concrete startup configuration: fresh directory, empty `p2p.seeds`
field in `config.toml`. -/
def cfgEmptySeeds : MainConfig :=
  { cfgLocalDivergent with rootExists := false, seedsField := "" }

/-- Concrete supervisor state before the first connection has completed
(`connecting` still set from initialization). -/
def idleSup : SupState :=
  { connecting := true
    nodeIP := "a:46657"
    lcdTarget := none
    connectedEvents := [] }

/-- Concrete supervisor state connected to node `a:46657`, all events
already flushed. -/
def connectedSupA : SupState :=
  { connecting := false
    nodeIP := "a:46657"
    lcdTarget := some "a:46657"
    connectedEvents := [] }

deriving instance DecidableEq for Except

/-! ## Helper lemmas -/

theorem getD_mem_of_lt (l : List String) (r : Nat) (h : r < l.length) :
    l.getD r "" ∈ l := by
  induction l generalizing r with
  | nil => simp at h
  | cons a t ih =>
      cases r with
      | zero => simp
      | succ n =>
          rw [List.getD_cons_succ]
          exact List.mem_cons_of_mem a (ih n (by simpa using Nat.lt_of_succ_lt_succ h))

theorem pickNode_mem (NODE : Option String) (seeds : List String) (r : Nat)
    (hr : r < seeds.length) (h : NODE = none ∨ NODE = some "") :
    ∃ m ∈ seeds, pickNode NODE seeds r = canonicalize m := by
  refine ⟨seeds.getD r "", getD_mem_of_lt seeds r hr, ?_⟩
  rcases h with h | h <;> simp [pickNode, jsOr, h]

theorem semverDiff_major_iff (a b : SemVer) :
    semverDiff a b = some "major" ↔ a.major ≠ b.major := by
  by_cases hab : a = b
  · subst hab; simp [semverDiff]
  · by_cases hm : a.major = b.major
    · by_cases hmi : a.minor = b.minor <;> simp [semverDiff, hab, hm, hmi]
    · simp [semverDiff, hab, hm]

theorem mainAfterDirCheck_cases (cfg : MainConfig) (b : Bool) :
    (mainAfterDirCheck cfg b).2 = .error .gaiaVersionMismatch ∨
    (mainAfterDirCheck cfg b).2 = .error .noSeeds ∨
    (mainAfterDirCheck cfg b).2 = .ok (parseSeeds cfg.seedsField) := by
  unfold mainAfterDirCheck
  by_cases hv : jsTrim cfg.gaiaVersion ≠ jsTrim cfg.expectedGaiaVersion
  · rw [if_pos hv]; left; rfl
  · rw [if_neg hv]
    by_cases hs : parseSeeds cfg.seedsField = []
    · rw [if_pos hs]; right; left; rfl
    · rw [if_neg hs]; right; right; rfl

theorem mainAfterDirCheck_spawns (cfg : MainConfig) (b : Bool) :
    ∀ args, Effect.spawn args ∈ (mainAfterDirCheck cfg b).1 → args = ["version"] := by
  intro args hmem
  have h1 : (mainAfterDirCheck cfg b).1 =
      (if b then [Effect.copyNetwork, Effect.writeFile "app_version"] else [])
        ++ [Effect.spawn ["version"]] := by
    unfold mainAfterDirCheck
    by_cases hv : jsTrim cfg.gaiaVersion ≠ jsTrim cfg.expectedGaiaVersion
    · rw [if_pos hv]
    · rw [if_neg hv]
      by_cases hs : parseSeeds cfg.seedsField = []
      · rw [if_pos hs]
      · rw [if_neg hs]
  rw [h1] at hmem
  rcases List.mem_append.mp hmem with hl | hr
  · cases b <;> simp at hl
  · simpa using hr

/-! ## Claim theorems -/

/-- C5: for a non-empty pool, `pickNode` returns the forced `COSMOS_NODE`
override whenever one is configured, and otherwise a member of the pool; in
both cases the chosen host's port is replaced with the canonical RPC
port 46657. -/
theorem pickNode_contract (NODE : Option String) (seeds : List String) (r : Nat)
    (hr : r < seeds.length) :
    (∀ f, NODE = some f → f ≠ "" → pickNode NODE seeds r = canonicalize f) ∧
    ((NODE = none ∨ NODE = some "") →
      ∃ m ∈ seeds, pickNode NODE seeds r = canonicalize m) := by
  constructor
  · intro f hf hne
    simp [pickNode, jsOr, hf, hne]
  · exact pickNode_mem NODE seeds r hr

/-- Witness for `pickNode_contract` at a concrete pool. -/
theorem pickNode_contract_witness :
    pickNode (some "forced:99") ["a:1", "b:2"] 0 = canonicalize "forced:99" ∧
    ∃ m ∈ ["a:1", "b:2"], pickNode none ["a:1", "b:2"] 1 = canonicalize m :=
  ⟨(pickNode_contract (some "forced:99") ["a:1", "b:2"] 0 (by decide)).1
      "forced:99" rfl (by decide),
   (pickNode_contract none ["a:1", "b:2"] 1 (by decide)).2 (Or.inl rfl)⟩

theorem genesisCheck_error (chainId e s : String) (err : MainError)
    (h : (genesisCheck chainId e s).2 = .error err) : err = .genesisChanged := by
  unfold genesisCheck at h
  by_cases hnl : chainId ≠ "local"
  · by_cases ht : jsTrim e ≠ jsTrim s
    · simp [hnl, ht] at h
      exact h.symm
    · simp [hnl, ht] at h
  · simp [hnl] at h

/-- C6: on a pre-existing, consistent, version-compatible home directory,
the stored-genesis comparison is never performed when the stored chain id
is the sentinel `"local"` (and startup never fails with the genesis
error); for any other chain id the comparison is performed, a difference
surviving `trim` fails startup with the genesis-changed error before any
effect, and agreement after `trim` never produces that error. -/
theorem genesis_check_behaviour (cfg : MainConfig)
    (hroot : cfg.rootExists = true) (hcons : cfg.consistent = true)
    (hver : cfg.existingVersion.major = cfg.currentVersion.major) :
    (cfg.chainId = "local" →
      genesisCheck cfg.chainId cfg.existingGenesis cfg.specifiedGenesis
        = (false, .ok ()) ∧
      (mainStartup cfg).2 ≠ .error .genesisChanged) ∧
    (cfg.chainId ≠ "local" →
      (genesisCheck cfg.chainId cfg.existingGenesis cfg.specifiedGenesis).1 = true ∧
      (jsTrim cfg.existingGenesis ≠ jsTrim cfg.specifiedGenesis →
        mainStartup cfg = ([], .error .genesisChanged)) ∧
      (jsTrim cfg.existingGenesis = jsTrim cfg.specifiedGenesis →
        (mainStartup cfg).2 ≠ .error .genesisChanged)) := by
  have hnm : ¬ semverDiff cfg.existingVersion cfg.currentVersion = some "major" := by
    rw [semverDiff_major_iff]
    simpa using hver
  constructor
  · intro hlocal
    have hg : genesisCheck cfg.chainId cfg.existingGenesis cfg.specifiedGenesis
        = (false, .ok ()) := by
      simp [genesisCheck, hlocal]
    refine ⟨hg, ?_⟩
    unfold mainStartup
    rw [if_pos hroot, if_neg (by simp [hcons]), if_neg hnm, hg]
    rcases mainAfterDirCheck_cases cfg false with h | h | h <;> rw [h] <;> simp
  · intro hnl
    have hg1 : (genesisCheck cfg.chainId cfg.existingGenesis cfg.specifiedGenesis).1
        = true := by
      simp [genesisCheck, hnl]
    refine ⟨hg1, ?_, ?_⟩
    · intro hne
      have hg : (genesisCheck cfg.chainId cfg.existingGenesis cfg.specifiedGenesis).2
          = .error .genesisChanged := by
        simp [genesisCheck, hnl, hne]
      unfold mainStartup
      rw [if_pos hroot, if_neg (by simp [hcons]), if_neg hnm, hg]
    · intro heq
      have hg : (genesisCheck cfg.chainId cfg.existingGenesis cfg.specifiedGenesis).2
          = .ok () := by
        simp [genesisCheck, hnl, heq]
      unfold mainStartup
      rw [if_pos hroot, if_neg (by simp [hcons]), if_neg hnm, hg]
      rcases mainAfterDirCheck_cases cfg false with h | h | h <;> rw [h] <;> simp

/-- Witness for `genesis_check_behaviour`: a `"local"` directory with
divergent genesis passes the check unperformed, a `"gaia-2"` directory
with the same divergent genesis fails startup. -/
theorem genesis_check_behaviour_witness :
    genesisCheck "local" "g1" "g2" = (false, .ok ()) ∧
    mainStartup cfgGaiaDivergent = ([], .error .genesisChanged) :=
  ⟨((genesis_check_behaviour cfgLocalDivergent rfl rfl rfl).1 rfl).1,
   ((genesis_check_behaviour cfgGaiaDivergent rfl rfl rfl).2
      (by decide)).2.1 (by decide)⟩

/-- C7: on a pre-existing home directory with all artifacts present, a
stored app version differing from the current one only below the major
component passes the compatibility check, while a major difference fails
startup with the incompatible-version error and an empty effect trace (no
data is touched, nothing is spawned). -/
theorem app_version_major_check (cfg : MainConfig)
    (hroot : cfg.rootExists = true) (hcons : cfg.consistent = true) :
    (cfg.existingVersion.major ≠ cfg.currentVersion.major →
      mainStartup cfg = ([], .error .incompatibleVersion)) ∧
    (cfg.existingVersion.major = cfg.currentVersion.major →
      (mainStartup cfg).2 ≠ .error .incompatibleVersion) := by
  constructor
  · intro hne
    unfold mainStartup
    rw [if_pos hroot, if_neg (by simp [hcons]),
      if_pos ((semverDiff_major_iff _ _).mpr hne)]
  · intro heq
    have hnm : ¬ semverDiff cfg.existingVersion cfg.currentVersion = some "major" := by
      rw [semverDiff_major_iff]
      simpa using heq
    unfold mainStartup
    rw [if_pos hroot, if_neg (by simp [hcons]), if_neg hnm]
    cases hg : (genesisCheck cfg.chainId cfg.existingGenesis cfg.specifiedGenesis).2 with
    | error e =>
        have he := genesisCheck_error cfg.chainId cfg.existingGenesis
          cfg.specifiedGenesis e hg
        subst he
        simp
    | ok u =>
        cases u
        rcases mainAfterDirCheck_cases cfg false with h | h | h <;> rw [h] <;> simp

/-- Witness for `app_version_major_check`: a major difference fails with
an empty trace, a minor difference never yields that error. -/
theorem app_version_major_check_witness :
    mainStartup cfgMajorDiff = ([], .error .incompatibleVersion) ∧
    (mainStartup cfgLocalDivergent).2 ≠ .error .incompatibleVersion :=
  ⟨(app_version_major_check cfgMajorDiff rfl rfl).1 (by decide),
   (app_version_major_check cfgLocalDivergent rfl rfl).2 rfl⟩


theorem mainAfterDirCheck_fails_empty (cfg : MainConfig) (b : Bool)
    (hs : parseSeeds cfg.seedsField = []) :
    ∃ e, (mainAfterDirCheck cfg b).2 = Except.error e := by
  unfold mainAfterDirCheck
  by_cases hv : jsTrim cfg.gaiaVersion ≠ jsTrim cfg.expectedGaiaVersion
  · rw [if_pos hv]
    exact ⟨_, rfl⟩
  · rw [if_neg hv, if_pos hs]
    exact ⟨_, rfl⟩

theorem lcdFold_resolved (evs : List LCDEvent) (st : LCDRun)
    (hns : ∀ d, LCDEvent.stdout d ∈ evs → containsServing d = false) :
    (evs.foldl lcdStep st).resolved = st.resolved := by
  induction evs generalizing st with
  | nil => rfl
  | cons e rest ih =>
      have hrest : ∀ d, LCDEvent.stdout d ∈ rest → containsServing d = false :=
        fun d hd => hns d (List.mem_cons_of_mem _ hd)
      rw [List.foldl_cons, ih _ hrest]
      cases e with
      | stdout data =>
          have hd : containsServing data = false :=
            hns data (List.mem_cons_self _ _)
          simp [lcdStep, hd]
      | exited => simp [lcdStep]

theorem lcdFold_errors_mono (evs : List LCDEvent) (st : LCDRun) (m : String)
    (hm : m ∈ st.errorsSent) : m ∈ (evs.foldl lcdStep st).errorsSent := by
  induction evs generalizing st with
  | nil => exact hm
  | cons e rest ih =>
      rw [List.foldl_cons]
      apply ih
      cases e with
      | stdout data =>
          by_cases hd : containsServing data <;> simp [lcdStep, hd] <;> exact hm
      | exited =>
          simp only [lcdStep]
          exact List.mem_append_left _ hm

theorem lcdFold_exit_error (evs : List LCDEvent) (st : LCDRun)
    (hex : LCDEvent.exited ∈ evs) :
    "The Gaia REST-server (LCD) exited unplanned"
      ∈ (evs.foldl lcdStep st).errorsSent := by
  induction evs generalizing st with
  | nil => cases hex
  | cons e rest ih =>
      rw [List.foldl_cons]
      by_cases he : e = LCDEvent.exited
      · subst he
        apply lcdFold_errors_mono
        simp [lcdStep]
      · rcases List.mem_cons.mp hex with h | h
        · exact absurd h.symm he
        · exact ih _ h

theorem connStep_inv (s : ConnState) (e : ConnEv)
    (h1 : s.loops ≤ 1) (h2 : s.connecting = false → s.loops = 0) :
    (connStep s e).loops ≤ 1 ∧
    ((connStep s e).connecting = false → (connStep s e).loops = 0) := by
  cases e with
  | reconnectReq =>
      by_cases hc : s.connecting
      · rw [show connStep s .reconnectReq = s from by simp [connStep, hc]]
        exact ⟨h1, h2⟩
      · have h0 : s.loops = 0 := h2 (by simpa using hc)
        rw [show connStep s .reconnectReq
            = { connecting := true, loops := s.loops + 1 } from by
          simp [connStep, hc]]
        constructor
        · simp [h0]
        · intro hfalse
          cases hfalse
  | connectDone =>
      constructor
      · show s.loops - 1 ≤ 1
        omega
      · intro _
        show s.loops - 1 = 0
        omega

theorem runConn_inv (evs : List ConnEv) (s : ConnState)
    (h1 : s.loops ≤ 1) (h2 : s.connecting = false → s.loops = 0) :
    (evs.foldl connStep s).loops ≤ 1 ∧
    ((evs.foldl connStep s).connecting = false
      → (evs.foldl connStep s).loops = 0) := by
  induction evs generalizing s with
  | nil => exact ⟨h1, h2⟩
  | cons e rest ih =>
      rw [List.foldl_cons]
      have hinv := connStep_inv s e h1 h2
      exact ih _ hinv.1 hinv.2

theorem connStep_id_of_connecting (s : ConnState) (hs : s.connecting = true) :
    connStep s .reconnectReq = s := by
  simp [connStep, hs]

theorem foldConn_id (evs : List ConnEv) (s : ConnState)
    (hnd : ConnEv.connectDone ∉ evs) (hs : s.connecting = true) :
    evs.foldl connStep s = s := by
  induction evs with
  | nil => rfl
  | cons e rest ih =>
      have hne : e ≠ ConnEv.connectDone :=
        fun he => hnd (he ▸ List.mem_cons_self _ _)
      have hrest : ConnEv.connectDone ∉ rest :=
        fun hm => hnd (List.mem_cons_of_mem _ hm)
      cases e with
      | connectDone => exact absurd rfl hne
      | reconnectReq =>
          rw [List.foldl_cons, connStep_id_of_connecting s hs]
          exact ih hrest

/-- C2 counterexample: with the two-node pool `["a:1", "b:2"]`, the
handshake against the picked node `a:46657` is disapproved and the retry
draw picks index 0 again, so the single new handshake attempt targets the
very node that was just disapproved — the pool size being greater than one
does not make the new node different. -/
theorem disapprove_can_repick_same_node :
    (["a:1", "b:2"] : List String).length > 1 ∧
    pickNode none ["a:1", "b:2"] 0 = "a:46657" ∧
    initLCDOnDecision false false none ["a:1", "b:2"] 0 =
      [.killChild, .retryInit "a:46657"] := by
  decide

/-- C2 (amended): a disapproved trust request, outside shutdown, kills the
old initialization sub-process first and then makes exactly one new
handshake attempt, against a freshly picked pool member (with no forced
override) — which may coincide with the disapproved node. -/
theorem disapprove_single_retry (NODE : Option String) (seeds : List String)
    (r : Nat) (hr : r < seeds.length) :
    initLCDOnDecision false false NODE seeds r =
      [.killChild, .retryInit (pickNode NODE seeds r)] ∧
    ((NODE = none ∨ NODE = some "") →
      ∃ m ∈ seeds, pickNode NODE seeds r = canonicalize m) :=
  ⟨rfl, pickNode_mem NODE seeds r hr⟩

/-- Witness for `disapprove_single_retry` on a two-node pool. -/
theorem disapprove_single_retry_witness :
    initLCDOnDecision false false none ["a:1", "b:2"] 1 =
      [.killChild, .retryInit (pickNode none ["a:1", "b:2"] 1)] ∧
    (((none : Option String) = none ∨ (none : Option String) = some "") →
      ∃ m ∈ ["a:1", "b:2"],
        pickNode none ["a:1", "b:2"] 1 = canonicalize m) :=
  disapprove_single_retry none ["a:1", "b:2"] 1 (by decide)

/-- C9: an approve signal carrying a fingerprint different from the
outstanding request's fingerprint `F` rejects the verification promise, so
the handshake takes the rejection path: no trust confirmation is written to
the sub-process's stdin, and a retry is started against a newly picked
node. -/
theorem mismatched_approval_takes_rejection_path (F h : String) (hne : h ≠ F)
    (NODE : Option String) (seeds : List String) (r : Nat) :
    handleHashVerification F (.approved h) = false ∧
    (∀ s, InitAction.writeStdin s ∉
      initLCDOnDecision (handleHashVerification F (.approved h))
        false NODE seeds r) ∧
    InitAction.retryInit (pickNode NODE seeds r) ∈
      initLCDOnDecision (handleHashVerification F (.approved h))
        false NODE seeds r := by
  have hv : handleHashVerification F (.approved h) = false := by
    simp [handleHashVerification]
    exact hne
  refine ⟨hv, ?_, ?_⟩
  · intro s
    rw [hv]
    simp [initLCDOnDecision]
  · rw [hv]
    simp [initLCDOnDecision]

/-- Witness for `mismatched_approval_takes_rejection_path`. -/
theorem mismatched_approval_witness :
    handleHashVerification "aaaa" (.approved "bbbb") = false ∧
    (∀ s, InitAction.writeStdin s ∉
      initLCDOnDecision (handleHashVerification "aaaa" (.approved "bbbb"))
        false none ["a:1"] 0) ∧
    InitAction.retryInit (pickNode none ["a:1"] 0) ∈
      initLCDOnDecision (handleHashVerification "aaaa" (.approved "bbbb"))
        false none ["a:1"] 0 :=
  mismatched_approval_takes_rejection_path "aaaa" "bbbb" (by decide)
    none ["a:1"] 0

/-- C3 counterexample: the gateway prints no serving marker and exits;
`startLCD` sends the unplanned-exit error event but its promise is neither
resolved nor rejected — startup step terminates in neither `Connected` nor
a categorized failure, it stays pending (the executor has no timeout and
never calls reject). -/
theorem startLCD_early_exit_pending :
    runStartLCD [.stdout "ERROR: cannot connect", .exited] =
      { resolved := false,
        errorsSent := ["The Gaia REST-server (LCD) exited unplanned"] } := by
  decide

/-- C3 (amended): whenever the gateway's output never contains the serving
marker and the process exits, a user-visible unplanned-exit error event is
surfaced to the renderer, but the `startLCD` promise stays unresolved
forever — there is no bounded wait and no `GatewayStartupFailed`
rejection, so the startup step completes only on the marker. -/
theorem startLCD_early_exit_surfaces_error (evs : List LCDEvent)
    (hns : ∀ d, LCDEvent.stdout d ∈ evs → containsServing d = false)
    (hex : LCDEvent.exited ∈ evs) :
    (runStartLCD evs).resolved = false ∧
    "The Gaia REST-server (LCD) exited unplanned"
      ∈ (runStartLCD evs).errorsSent := by
  constructor
  · rw [runStartLCD, lcdFold_resolved evs _ hns]
  · exact lcdFold_exit_error evs _ hex

/-- Witness for `startLCD_early_exit_surfaces_error`. -/
theorem startLCD_early_exit_witness :
    (runStartLCD [.stdout "ERROR: cannot connect", .exited]).resolved = false ∧
    "The Gaia REST-server (LCD) exited unplanned"
      ∈ (runStartLCD [.stdout "ERROR: cannot connect", .exited]).errorsSent :=
  startLCD_early_exit_surfaces_error [.stdout "ERROR: cannot connect", .exited]
    (by
      intro d hd
      simp only [List.mem_cons, List.not_mem_nil, or_false] at hd
      rcases hd with h | h
      · injection h with h2
        subst h2
        decide
      · exact LCDEvent.noConfusion h)
    (by decide)

/-- C4 counterexample: a fresh directory with an empty seed field fails
startup with the no-seeds error, but the effect trace at that point
already contains the spawn of the `gaia version` probe — startup does not
fail before any external process has been spawned. -/
theorem version_probe_precedes_seed_check :
    mainStartup cfgEmptySeeds =
      ([.copyNetwork, .writeFile "app_version", .spawn ["version"]],
        .error .noSeeds) ∧
    Effect.spawn ["version"] ∈ (mainStartup cfgEmptySeeds).1 := by
  decide

/-- C4 (amended): whenever `config.toml` yields an empty seed list,
startup always fails, and the only external process spawned before the
failure is the `gaia version` probe — neither the gateway nor any
initialization sub-process is started. -/
theorem empty_seeds_fails_startup (cfg : MainConfig)
    (hs : parseSeeds cfg.seedsField = []) :
    (∃ e, (mainStartup cfg).2 = Except.error e) ∧
    ∀ args, Effect.spawn args ∈ (mainStartup cfg).1 → args = ["version"] := by
  constructor
  · unfold mainStartup
    by_cases hroot : cfg.rootExists
    · rw [if_pos hroot]
      by_cases hcons : ¬ cfg.consistent
      · rw [if_pos hcons]
        exact ⟨_, rfl⟩
      · rw [if_neg hcons]
        by_cases hmaj :
            semverDiff cfg.existingVersion cfg.currentVersion = some "major"
        · rw [if_pos hmaj]
          exact ⟨_, rfl⟩
        · rw [if_neg hmaj]
          cases hg :
              (genesisCheck cfg.chainId cfg.existingGenesis
                cfg.specifiedGenesis).2 with
          | error e => exact ⟨e, rfl⟩
          | ok u =>
              cases u
              exact mainAfterDirCheck_fails_empty cfg false hs
    · rw [if_neg hroot]
      exact mainAfterDirCheck_fails_empty cfg true hs
  · intro args hmem
    unfold mainStartup at hmem
    by_cases hroot : cfg.rootExists
    · rw [if_pos hroot] at hmem
      by_cases hcons : ¬ cfg.consistent
      · rw [if_pos hcons] at hmem
        simp at hmem
      · rw [if_neg hcons] at hmem
        by_cases hmaj :
            semverDiff cfg.existingVersion cfg.currentVersion = some "major"
        · rw [if_pos hmaj] at hmem
          simp at hmem
        · rw [if_neg hmaj] at hmem
          cases hg :
              (genesisCheck cfg.chainId cfg.existingGenesis
                cfg.specifiedGenesis).2 with
          | error e =>
              rw [hg] at hmem
              simp at hmem
          | ok u =>
              cases u
              rw [hg] at hmem
              exact mainAfterDirCheck_spawns cfg false args hmem
    · rw [if_neg hroot] at hmem
      exact mainAfterDirCheck_spawns cfg true args hmem

/-- Witness for `empty_seeds_fails_startup`. -/
theorem empty_seeds_fails_startup_witness :
    (∃ e, (mainStartup cfgEmptySeeds).2 = Except.error e) ∧
    ∀ args, Effect.spawn args ∈ (mainStartup cfgEmptySeeds).1
      → args = ["version"] :=
  empty_seeds_fails_startup cfgEmptySeeds (by decide)

/-- C8: across every trace of reconnect requests and connect completions,
at most one reconnect loop is in flight — a request arriving while
`connecting` holds starts no additional loop. -/
theorem single_reconnect_loop (evs : List ConnEv) : (runConn evs).loops ≤ 1 :=
  (runConn_inv evs initConnState (by decide) (by decide)).1

/-- C10: before any connect has completed, the connection state is still
the initial one (`connecting = true`, set at module load), a further
reconnect request leaves it unchanged, and `reconnect` on a supervisor
state with `connecting` set returns at once with no probe, no process
kill and no state change. -/
theorem reconnect_noop_before_first_connect (evs : List ConnEv)
    (hnd : ConnEv.connectDone ∉ evs)
    (st : SupState) (hst : st.connecting = true)
    (NODE : Option String) (seeds : List String)
    (alive : String → Bool) (rs : List Nat) :
    runConn evs = initConnState ∧
    connStep (runConn evs) .reconnectReq = runConn evs ∧
    reconnect st NODE seeds alive rs = (some st, []) := by
  have h1 : runConn evs = initConnState :=
    foldConn_id evs initConnState hnd rfl
  refine ⟨h1, ?_, ?_⟩
  · rw [h1]
    exact connStep_id_of_connecting _ rfl
  · simp [reconnect, hst]

/-- Witness for `reconnect_noop_before_first_connect`. -/
theorem reconnect_noop_witness :
    runConn [ConnEv.reconnectReq, ConnEv.reconnectReq] = initConnState ∧
    connStep (runConn [ConnEv.reconnectReq, ConnEv.reconnectReq]) .reconnectReq
      = runConn [ConnEv.reconnectReq, ConnEv.reconnectReq] ∧
    reconnect idleSup none ["a:1"] (fun _ => true) [0] = (some idleSup, []) :=
  reconnect_noop_before_first_connect
    [ConnEv.reconnectReq, ConnEv.reconnectReq] (by decide)
    idleSup rfl none ["a:1"] (fun _ => true) [0]

/-- C1: the supervisor is connected to stale node `a:46657` and a
reconnect is triggered; the probe loop (3000 ms timeout per probe) finds
live node `b:46657`, yet — because the `let nodeIP` of the probe loop body
is block-scoped and shadows the module-level `nodeIP` read at
index.js:474 — the gateway is killed and restarted pointed at the stale
`a:46657`, and the single `connected` event carries `a:46657`, not the
newly-found live node's address. -/
theorem reconnect_uses_stale_node :
    (findLiveNode none ["a:1", "b:2"] (fun n => n == "b:46657") [1]).2
      = some "b:46657" ∧
    reconnect connectedSupA none ["a:1", "b:2"] (fun n => n == "b:46657") [1]
      = (some { connectedSupA with connectedEvents := ["a:46657"] },
          [.probe "b:46657" 3000, .killLCD, .spawnLCD "a:46657",
            .emitConnected "a:46657"]) := by
  decide


end Voyager
